import Mathlib

/-!
Verification of the O3D message-queue protocol core (message_queue_test.cc
and the message-queue service it exercises).

The client-side helper (`TextureUpdateHelper`) is embedded from the observed
source. The host side — the wire codec, the shared-memory registry and the
dispatcher implemented in core/cross/message_queue.cc/h — is not among the
observed files, so those parts are modelled from the specification document
(each such definition is marked `Modelled from the spec:`).

Machine integers are modelled as `Nat`/`Int`; all wire fields are fixed-width
32-bit little-endian words, so field values are `Nat` below `2^32`.
-/

namespace O3D

/-- Width in bytes of a C `int` on the modelled (32-bit, 2009-era) platform;
`sizeof(int) = sizeof(unsigned int) = sizeof(size_t) = sizeof(MessageId) = 4`. -/
def sizeof_int : Nat := 4

/-- Little-endian byte serialization of a 32-bit word (value taken mod `2^32`). -/
def toLE4 (n : Nat) : List Nat :=
  [n % 256, n / 256 % 256, n / 65536 % 256, n / 16777216 % 256]

/-- Read a 32-bit little-endian word from a 4-byte list (0 on any other shape). -/
def fromLE4 (bs : List Nat) : Nat :=
  match bs with
  | [a, b, c, d] => a + 256 * b + 65536 * c + 16777216 * d
  | _ => 0

/-- Modelled from the spec: the numeric values of `MessageQueue::MessageId`
live in the unobserved header core/cross/message_queue.h; the model fixes
distinct tags. `HELLO` is the handshake message. -/
def HELLO : Nat := 1

/-- Modelled from the spec: tag of the shared-memory allocation request. -/
def ALLOCATE_SHARED_MEMORY : Nat := 2

/-- Modelled from the spec: tag of the texture-region update request
(the spec's `UpdateRegion`). -/
def UPDATE_TEXTURE2D : Nat := 3

/-- Modelled from the spec: tag of the request registering a client-allocated
shared-memory segment. -/
def REGISTER_SHARED_MEMORY : Nat := 4

/-- Modelled from the spec: tag of the request releasing a registered
shared-memory segment. -/
def UNREGISTER_SHARED_MEMORY : Nat := 5

/-- Modelled from the spec: the five message kinds of the protocol, with their
tag-specific fields. All fields are 32-bit words. -/
inductive Msg where
  | hello : Msg
  | allocateSharedMemory (size : Nat) : Msg
  | updateTexture2D (texture_id : Nat) (level : Nat) (shared_memory_id : Nat)
      (offset : Nat) (count : Nat) : Msg
  | registerSharedMemory (size : Nat) : Msg
  | unregisterSharedMemory (shared_memory_id : Nat) : Msg
  deriving DecidableEq

/-- A message's fields are valid when each fits a 32-bit wire word. -/
def Msg.valid : Msg → Prop
  | .hello => True
  | .allocateSharedMemory size => size < 4294967296
  | .updateTexture2D t l id off cnt =>
      t < 4294967296 ∧ l < 4294967296 ∧ id < 4294967296 ∧
      off < 4294967296 ∧ cnt < 4294967296
  | .registerSharedMemory size => size < 4294967296
  | .unregisterSharedMemory id => id < 4294967296

/-- Modelled from the spec: decode-time error taxonomy of the codec in
core/cross/message_queue.cc. -/
inductive DecodeError where
  | UnknownMessageKind : DecodeError
  | MalformedMessage : DecodeError
  deriving DecidableEq

/-- Is `t` one of the five known message tags? -/
def knownTag (t : Nat) : Bool :=
  t == HELLO || t == ALLOCATE_SHARED_MEMORY || t == UPDATE_TEXTURE2D ||
  t == REGISTER_SHARED_MEMORY || t == UNREGISTER_SHARED_MEMORY

/-- Modelled from the spec: the exact byte length a message with tag `t` must
have (the leading tag word plus the tag-specific fields). -/
def expectedBytes (t : Nat) : Nat :=
  if t = HELLO then 4
  else if t = UPDATE_TEXTURE2D then 24
  else 8

/-- Modelled from the spec: the exact count of transferred OS handles a
message with tag `t` must carry. -/
def expectedHandles (t : Nat) : Nat :=
  if t = HELLO || t = REGISTER_SHARED_MEMORY then 1 else 0

/-- Modelled from the spec: `encode(Message) -> bytes+handles`. The byte
payload is the tag word followed by the tag-specific fields, little-endian;
the second component is the count of out-of-band transferred handles. -/
def encode : Msg → List Nat × Nat
  | .hello => (toLE4 HELLO, 1)
  | .allocateSharedMemory size => (toLE4 ALLOCATE_SHARED_MEMORY ++ toLE4 size, 0)
  | .updateTexture2D t l id off cnt =>
      (toLE4 UPDATE_TEXTURE2D ++ toLE4 t ++ toLE4 l ++ toLE4 id ++
        toLE4 off ++ toLE4 cnt, 0)
  | .registerSharedMemory size => (toLE4 REGISTER_SHARED_MEMORY ++ toLE4 size, 1)
  | .unregisterSharedMemory id => (toLE4 UNREGISTER_SHARED_MEMORY ++ toLE4 id, 0)

/-- The leading `message_id` word of a byte payload. -/
def tagOf (bytes : List Nat) : Nat := fromLE4 (bytes.take 4)

/-- Modelled from the spec: `decode(bytes, handles) -> Result<Message,
DecodeError>` of the codec in core/cross/message_queue.cc. The leading tag
word is read first; an unknown tag fails with `UnknownMessageKind`; a byte
length or handle count differing from the tag's exact expectation fails with
`MalformedMessage`; only then are the fields interpreted. -/
def decode (bytes : List Nat) (handleCount : Nat) : Except DecodeError Msg :=
  if bytes.length < 4 then .error .MalformedMessage
  else if knownTag (tagOf bytes) = false then .error .UnknownMessageKind
  else if bytes.length ≠ expectedBytes (tagOf bytes) ∨
      handleCount ≠ expectedHandles (tagOf bytes) then
    .error .MalformedMessage
  else if tagOf bytes = HELLO then .ok .hello
  else if tagOf bytes = ALLOCATE_SHARED_MEMORY then
    .ok (.allocateSharedMemory (fromLE4 (bytes.drop 4)))
  else if tagOf bytes = UPDATE_TEXTURE2D then
    .ok (.updateTexture2D (fromLE4 ((bytes.drop 4).take 4))
      (fromLE4 ((bytes.drop 8).take 4)) (fromLE4 ((bytes.drop 12).take 4))
      (fromLE4 ((bytes.drop 16).take 4)) (fromLE4 ((bytes.drop 20).take 4)))
  else if tagOf bytes = REGISTER_SHARED_MEMORY then
    .ok (.registerSharedMemory (fromLE4 (bytes.drop 4)))
  else
    .ok (.unregisterSharedMemory (fromLE4 (bytes.drop 4)))

/-- Modelled from the spec: one Segment Registry Entry of the shared-memory
registry in core/cross/message_queue.cc — the host-side handle of the
segment and its immutable byte size (the `SegmentId` is the key it is
stored under). -/
structure Entry where
  handle : Int
  byte_size : Nat
  deriving DecidableEq

/-- Modelled from the spec: the host's shared-memory registry in
core/cross/message_queue.cc — an ID-keyed table of segment entries plus the
monotone counter from which fresh `SegmentId`s are drawn. -/
structure Registry where
  nextId : Nat
  table : List (Nat × Entry)
  deriving DecidableEq

/-- The empty registry of a freshly started host. -/
def Registry.empty : Registry := ⟨0, []⟩

/-- Modelled from the spec: `lookup(id) -> Option<Entry>`, the read-only
access used during `UpdateRegion` validation. -/
def Registry.lookup (r : Registry) (id : Nat) : Option Entry :=
  (r.table.find? (fun p => p.1 == id)).map Prod.snd

/-- Modelled from the spec: `allocate(size) -> (SegmentId, handle)`. The OS
shared-memory object of at least `size` bytes is created by an external
collaborator which hands back `osHandle`; the registry assigns the next
`SegmentId`, inserts the entry and returns the id. -/
def Registry.allocate (r : Registry) (size : Nat) (osHandle : Int) :
    Nat × Registry :=
  (r.nextId, ⟨r.nextId + 1, (r.nextId, ⟨osHandle, size⟩) :: r.table⟩)

/-- Modelled from the spec: `register_external(handle, size) -> SegmentId` —
the registry takes ownership of a duplicate of the client-supplied handle,
assigns a new `SegmentId` and inserts the entry. -/
def Registry.register_external (r : Registry) (handle : Int) (size : Nat) :
    Nat × Registry :=
  (r.nextId, ⟨r.nextId + 1, (r.nextId, ⟨handle, size⟩) :: r.table⟩)

/-- Modelled from the spec: `release(id) -> bool` — removes the entry and
releases the host's handle reference; returns false if `id` was unknown. -/
def Registry.release (r : Registry) (id : Nat) : Bool × Registry :=
  match r.lookup id with
  | some _ => (true, ⟨r.nextId, r.table.filter (fun p => p.1 != id)⟩)
  | none => (false, r)

/-- The `SegmentId`s of the currently-live segments. -/
def Registry.liveIds (r : Registry) : List Nat := r.table.map Prod.fst

/-- Registry well-formedness: every live `SegmentId` is below the allocation
counter, so the counter never hands out an id that is (or ever was) live. -/
def Registry.WF (r : Registry) : Prop := ∀ p ∈ r.table, p.1 < r.nextId

/-- Modelled from the spec: the arguments of one invocation of the external
render/update collaborator hook `apply_update(target_id, level, base_pointer,
offset, count)`; `base` is the segment's base handle standing in for the
mapped base pointer. -/
structure HookCall where
  target : Nat
  level : Nat
  base : Int
  offset : Nat
  count : Nat
  deriving DecidableEq

/-- The fields of an `UpdateRegion` (`UPDATE_TEXTURE2D`) request. -/
structure UpdateRequest where
  target : Nat
  level : Nat
  id : Nat
  offset : Nat
  count : Nat
  deriving DecidableEq

/-- Modelled from the spec: the dispatcher's handling of `UpdateRegion` in
core/cross/message_queue.cc — look up the `SegmentId`; if present and
`offset + count <= size`, hand off to the external render hook and reply with
its verdict; otherwise reply false. Returns the boolean reply, the registry
after the request and the list of hook invocations made. -/
def processUpdate (hook : HookCall → Bool) (r : Registry) (req : UpdateRequest) :
    (Bool × Registry) × List HookCall :=
  match r.lookup req.id with
  | none => ((false, r), [])
  | some entry =>
    if req.offset + req.count ≤ entry.byte_size then
      let call : HookCall := ⟨req.target, req.level, entry.handle, req.offset, req.count⟩
      ((hook call, r), [call])
    else ((false, r), [])

/-- Modelled from the spec: the dispatcher's handling of
`UnregisterSharedMemory` — the registry release, whose boolean is the reply. -/
def processUnregister (r : Registry) (id : Nat) : Bool × Registry :=
  r.release id

/-- A host-to-client transmission: the handshake acknowledgment sent on the
rendezvous address, or a reply datagram on a client's dedicated channel. -/
inductive SentMessage where
  | rendezvousAck (ok : Bool) : SentMessage
  | channelReply (channel : Int) (bytes : List Nat) : SentMessage
  deriving DecidableEq

/-- Modelled from the spec: the host's connection state — the registry plus
the dedicated channel handles of the connected clients. -/
structure Host where
  registry : Registry
  connections : List Int
  deriving DecidableEq

/-- Modelled from the spec: the handshake `accept(initial_hello)` in
core/cross/message_queue.cc — on a `Hello` carrying exactly one transferred
handle, record it as the client's dedicated channel and acknowledge success
on the rendezvous address; on any other handle count, create no connection
and send nothing. -/
def processHello (host : Host) (handles : List Int) : Host × List SentMessage :=
  match handles with
  | [h] => (⟨host.registry, h :: host.connections⟩, [SentMessage.rendezvousAck true])
  | _ => (host, [])

/-- `nacl::kInvalidHandle`, the invalid-socket/handle sentinel (the concrete
value is platform-defined; the model fixes the POSIX value −1). -/
def kInvalidHandle : Int := -1

/-- The client helper of message_queue_test.cc: its only state is the handle
of the socket connected to O3D, `nacl::kInvalidHandle` until `ConnectToO3D`
succeeds. -/
structure TextureUpdateHelper where
  o3d_handle : Int
  deriving DecidableEq

/-- A datagram as the client builds it: byte payload plus the count of
out-of-band transferred handles. -/
structure Datagram where
  bytes : List Nat
  handleCount : Nat
  deriving DecidableEq

/-- `TextureUpdateHelper::ReceiveBooleanResponse`: `result` is the byte count
`nacl::ReceiveDatagram` returned and `response` the integer it read into the
4-byte buffer (initialized to 0). The code returns false unless exactly
`sizeof(int)` bytes arrived, and otherwise the truth value of `response`. -/
def ReceiveBooleanResponse (result : Int) (response : Int) : Bool :=
  if result != (sizeof_int : Int) then false
  else response != 0

/-- The reply `TextureUpdateHelper::RequestSharedMemory` waits for: the
`ReceiveDatagram` return value, the truncation flag, the handle count and
iov count the transport reports, the integer `shared_memory_id` read into
the buffer, and the transferred shared-memory handle. -/
structure AllocReply where
  result : Int
  truncated : Bool
  handle_count : Nat
  iov_length : Nat
  shared_memory_id : Int
  handle : Int
  deriving DecidableEq

/-- `TextureUpdateHelper::RequestSharedMemory`: fails immediately (sending
nothing) when no channel is established; otherwise sends the
`ALLOCATE_SHARED_MEMORY` request (id word then requested size), waits for the
reply and maps the returned handle — `mapResult` is the outcome of
`nacl::Map`, `none` for `NULL`. Returns the boolean result, the
`*shared_mem_id` out-value when set, and the datagrams sent. The model takes
`SendDatagram` as delivering the full payload, which the source checks. -/
def RequestSharedMemory (helper : TextureUpdateHelper) (requested_size : Nat)
    (reply : AllocReply) (mapResult : Option Nat) :
    (Bool × Option Int) × List Datagram :=
  if helper.o3d_handle = kInvalidHandle then ((false, none), [])
  else
    let msg : Datagram := ⟨toLE4 ALLOCATE_SHARED_MEMORY ++ toLE4 requested_size, 0⟩
    if reply.result < 0 ∨ reply.truncated = true ∨ reply.handle_count ≠ 1 ∨
        reply.iov_length ≠ 1 then
      ((false, none), [msg])
    else
      match mapResult with
      | none => ((false, none), [msg])
      | some _ => ((true, some reply.shared_memory_id), [msg])

/-- `TextureUpdateHelper::RegisterSharedMemory`: when no channel is
established the source runs `return false;` inside this `int`-returning
function, which yields the integer 0 — not the −1 its comment documents —
and sends nothing. Otherwise it sends the `REGISTER_SHARED_MEMORY` request
(id word then segment size, with the segment handle transferred out-of-band)
and returns `reply_id`, the content of its reply buffer after the blocking
receive (initialized to −1 and overwritten by a delivered 4-byte reply). -/
def RegisterSharedMemory (helper : TextureUpdateHelper) (shared_memory : Int)
    (shared_memory_size : Nat) (reply_id : Int) : Int × List Datagram :=
  if helper.o3d_handle = kInvalidHandle then (0, [])
  else
    let msg : Datagram := ⟨toLE4 REGISTER_SHARED_MEMORY ++ toLE4 shared_memory_size, 1⟩
    (reply_id, [msg])

/-! ## Helper lemmas -/

theorem take4_cons (a b c d : Nat) (l : List Nat) :
    List.take 4 (a :: b :: c :: d :: l) = [a, b, c, d] := rfl

theorem drop4_cons (a b c d : Nat) (l : List Nat) :
    List.drop 4 (a :: b :: c :: d :: l) = l := rfl

theorem drop8_cons (a b c d e f g h : Nat) (l : List Nat) :
    List.drop 8 (a :: b :: c :: d :: e :: f :: g :: h :: l) = l := rfl

/-! ## Claim theorems -/

/-- C9: the client helper's boolean-reply decoder
(`ReceiveBooleanResponse`) returns true exactly when the datagram delivered
`sizeof(int)` bytes and the integer they carry is nonzero; a short, long or
failed receive yields false, as does a zero-valued payload. -/
theorem receive_boolean_response_true_iff (result response : Int) :
    ReceiveBooleanResponse result response = true ↔
      (result = (sizeof_int : Int) ∧ response ≠ 0) := by
  simp [ReceiveBooleanResponse]

/-- C10: with no established channel (`o3d_handle = nacl::kInvalidHandle`),
`RequestSharedMemory` returns false, `RegisterSharedMemory` returns 0 (the
integer value of its `return false;`, not the −1 its comment documents), and
neither sends any datagram. -/
theorem no_channel_requests_fail_without_send (helper : TextureUpdateHelper)
    (hinv : helper.o3d_handle = kInvalidHandle) (requested_size : Nat)
    (reply : AllocReply) (mapResult : Option Nat) (shared_memory : Int)
    (shared_memory_size : Nat) (reply_id : Int) :
    RequestSharedMemory helper requested_size reply mapResult = ((false, none), []) ∧
      RegisterSharedMemory helper shared_memory shared_memory_size reply_id = (0, []) := by
  constructor
  · simp [RequestSharedMemory, hinv]
  · simp [RegisterSharedMemory, hinv]

/-- Closed instance of C10 at a helper whose `ConnectToO3D` never ran. -/
theorem no_channel_requests_fail_without_send_witness :
    RequestSharedMemory ⟨-1⟩ 65536 ⟨4, false, 1, 1, 0, 9⟩ (some 0) = ((false, none), []) ∧
      RegisterSharedMemory ⟨-1⟩ 9 65536 3 = (0, []) :=
  no_channel_requests_fail_without_send ⟨-1⟩ (by decide) 65536 ⟨4, false, 1, 1, 0, 9⟩
    (some 0) 9 65536 3

/-- C1: an `UpdateRegion` request whose segment exists but whose
`offset + count` exceeds the segment's byte size is replied to with false,
the registry is untouched and the external render hook `apply_update` is
never invoked (no out-of-range read). -/
theorem update_out_of_bounds_replies_false (hook : HookCall → Bool)
    (r : Registry) (req : UpdateRequest) (entry : Entry)
    (hfound : r.lookup req.id = some entry)
    (hbound : entry.byte_size < req.offset + req.count) :
    processUpdate hook r req = ((false, r), []) := by
  simp only [processUpdate, hfound]
  rw [if_neg (by omega)]

/-- Closed instance of C1: a 4-byte segment, update of bytes [3, 5). -/
theorem update_out_of_bounds_replies_false_witness :
    processUpdate (fun _ => true) ⟨1, [(0, ⟨3, 4⟩)]⟩ ⟨7, 0, 0, 3, 2⟩ =
      ((false, ⟨1, [(0, ⟨3, 4⟩)]⟩), []) :=
  update_out_of_bounds_replies_false (fun _ => true) ⟨1, [(0, ⟨3, 4⟩)]⟩
    ⟨7, 0, 0, 3, 2⟩ ⟨3, 4⟩ (by decide) (by decide)

/-- C4: an `UpdateRegion` or `UnregisterSharedMemory` request naming a
`SegmentId` absent from the registry is replied to with false and leaves the
registry unchanged — a typed failure, not a crash or silent no-op. -/
theorem unknown_segment_fails_registry_unchanged (hook : HookCall → Bool)
    (r : Registry) (req : UpdateRequest) (id : Nat)
    (hu : r.lookup req.id = none) (hi : r.lookup id = none) :
    processUpdate hook r req = ((false, r), []) ∧
      processUnregister r id = (false, r) := by
  constructor
  · simp [processUpdate, hu]
  · simp [processUnregister, Registry.release, hi]

/-- Closed instance of C4: the spec's unknown `SegmentId = 999` scenario
against an empty registry. -/
theorem unknown_segment_fails_registry_unchanged_witness :
    processUpdate (fun _ => true) Registry.empty ⟨7, 0, 999, 0, 65536⟩ =
      ((false, Registry.empty), []) ∧
      processUnregister Registry.empty 999 = (false, Registry.empty) :=
  unknown_segment_fails_registry_unchanged (fun _ => true) Registry.empty
    ⟨7, 0, 999, 0, 65536⟩ 999 (by decide) (by decide)

/-- C5: a `Hello` carrying exactly one transferred handle makes the host
record that handle as the client's dedicated channel and send a single
boolean success acknowledgment on the rendezvous address (and nothing on the
dedicated channel); any other handle count creates no connection and sends
no acknowledgment. -/
theorem hello_handshake (host : Host) (handles : List Int) :
    (∀ h, handles = [h] →
      processHello host handles =
        (⟨host.registry, h :: host.connections⟩, [SentMessage.rendezvousAck true])) ∧
      (handles.length ≠ 1 → processHello host handles = (host, [])) := by
  constructor
  · intro h hh
    subst hh
    rfl
  · intro hlen
    match handles, hlen with
    | [], _ => rfl
    | a :: b :: t, _ => rfl
    | [a], hlen => exact absurd rfl hlen

/-- Closed instance of C5: a fresh host accepting a `Hello` with one handle. -/
theorem hello_handshake_witness :
    processHello ⟨Registry.empty, []⟩ [5] =
      (⟨Registry.empty, [5]⟩, [SentMessage.rendezvousAck true]) :=
  (hello_handshake ⟨Registry.empty, []⟩ [5]).1 5 rfl

/-- C6: registry release is idempotent-safe — releasing a live `SegmentId`
returns true and removes the entry, after which the id no longer resolves;
releasing an unknown id (a double release included) returns false and leaves
the registry as it was, never crashing. -/
theorem release_idempotent_safe (r : Registry) (id : Nat) :
    (∀ e, r.lookup id = some e →
      (r.release id).1 = true ∧
        ((r.release id).2).lookup id = none ∧
        ((r.release id).2).release id = (false, (r.release id).2)) ∧
      (r.lookup id = none → r.release id = (false, r)) := by
  have hnone : ∀ s : Registry, s.lookup id = none → s.release id = (false, s) := by
    intro s hs
    simp [Registry.release, hs]
  constructor
  · intro e he
    have hrel : r.release id =
        (true, ⟨r.nextId, r.table.filter (fun p => p.1 != id)⟩) := by
      simp [Registry.release, he]
    have hlook :
        (Registry.mk r.nextId (r.table.filter (fun p => p.1 != id))).lookup id = none := by
      simp [Registry.lookup, List.find?_eq_none, List.mem_filter]
    exact ⟨by rw [hrel], by rw [hrel]; exact hlook, by rw [hrel]; exact hnone _ hlook⟩
  · exact hnone r

/-- Closed instance of C6: release a live id, then release it again. -/
theorem release_idempotent_safe_witness :
    (Registry.release ⟨1, [(0, ⟨3, 8⟩)]⟩ 0).1 = true ∧
      ((Registry.release ⟨1, [(0, ⟨3, 8⟩)]⟩ 0).2).lookup 0 = none ∧
      ((Registry.release ⟨1, [(0, ⟨3, 8⟩)]⟩ 0).2).release 0 =
        (false, (Registry.release ⟨1, [(0, ⟨3, 8⟩)]⟩ 0).2) :=
  (release_idempotent_safe ⟨1, [(0, ⟨3, 8⟩)]⟩ 0).1 ⟨3, 8⟩ (by decide)

/-- C7: in a well-formed registry both `allocate` and `register_external`
hand out exactly the monotone counter's next id, which is unique among the
currently-live segments; each assignment bumps the counter, and `release`
never lowers it — so an id is never reused. -/
theorem segment_ids_unique_monotonic (r : Registry) (hwf : r.WF)
    (size size2 : Nat) (osHandle handle2 : Int) :
    (r.allocate size osHandle).1 = r.nextId ∧
      (r.allocate size osHandle).1 ∉ r.liveIds ∧
      ((r.allocate size osHandle).2).WF ∧
      ((r.allocate size osHandle).2).nextId = r.nextId + 1 ∧
      (r.register_external handle2 size2).1 = r.nextId ∧
      (r.register_external handle2 size2).1 ∉ r.liveIds ∧
      ((r.register_external handle2 size2).2).WF ∧
      ((r.register_external handle2 size2).2).nextId = r.nextId + 1 ∧
      ∀ id, ((r.release id).2).WF ∧ ((r.release id).2).nextId = r.nextId := by
  have fresh : r.nextId ∉ r.liveIds := by
    intro hmem
    simp only [Registry.liveIds, List.mem_map] at hmem
    obtain ⟨p, hp, hpe⟩ := hmem
    have := hwf _ hp
    omega
  have wfcons : ∀ (h : Int) (s : Nat),
      (Registry.mk (r.nextId + 1) ((r.nextId, ⟨h, s⟩) :: r.table)).WF := by
    intro h s p hp
    rcases List.mem_cons.mp hp with rfl | hmem
    · exact Nat.lt_succ_self _
    · exact Nat.lt_succ_of_lt (hwf _ hmem)
  have wfrel : ∀ id, ((r.release id).2).WF ∧ ((r.release id).2).nextId = r.nextId := by
    intro id
    cases hl : r.lookup id with
    | none => simp only [Registry.release, hl]; exact ⟨hwf, trivial⟩
    | some e =>
      simp only [Registry.release, hl]
      exact ⟨fun p hp => hwf _ (List.mem_of_mem_filter hp), trivial⟩
  exact ⟨rfl, fresh, wfcons _ _, rfl, rfl, fresh, wfcons _ _, rfl, wfrel⟩

/-- Closed instance of C7: allocating in a registry holding one live
segment hands out the fresh id 1. -/
theorem segment_ids_unique_monotonic_witness :
    (Registry.allocate ⟨1, [(0, ⟨3, 8⟩)]⟩ 16 4).1 = 1 ∧
      (Registry.allocate ⟨1, [(0, ⟨3, 8⟩)]⟩ 16 4).1 ∉
        Registry.liveIds ⟨1, [(0, ⟨3, 8⟩)]⟩ :=
  ⟨(segment_ids_unique_monotonic ⟨1, [(0, ⟨3, 8⟩)]⟩ (by unfold Registry.WF; decide) 16 0 4 0).1,
   (segment_ids_unique_monotonic ⟨1, [(0, ⟨3, 8⟩)]⟩ (by unfold Registry.WF; decide) 16 0 4 0).2.1⟩

/-- C2: decode is strict — on any payload long enough to carry a
`message_id`, an unknown tag fails with `UnknownMessageKind`, and a known
tag whose byte length or transferred-handle count differs from the tag's
exact expectation fails with `MalformedMessage`; no fields are interpreted
in either case. -/
theorem decode_strict (bytes : List Nat) (handleCount : Nat)
    (hlen : 4 ≤ bytes.length) :
    (knownTag (tagOf bytes) = false →
      decode bytes handleCount = .error .UnknownMessageKind) ∧
      (knownTag (tagOf bytes) = true →
        bytes.length ≠ expectedBytes (tagOf bytes) ∨
          handleCount ≠ expectedHandles (tagOf bytes) →
        decode bytes handleCount = .error .MalformedMessage) := by
  constructor
  · intro hk
    simp only [decode]
    rw [if_neg (by omega), if_pos hk]
  · intro hk hbad
    simp only [decode]
    rw [if_neg (by omega), if_neg (by simp [hk]), if_pos hbad]

/-- Closed instances of C2: the unknown tag 9, and a `Hello` whose handle
count is 0 instead of 1. -/
theorem decode_strict_witness :
    decode [9, 0, 0, 0] 0 = .error .UnknownMessageKind ∧
      decode [1, 0, 0, 0] 0 = .error .MalformedMessage :=
  ⟨(decode_strict [9, 0, 0, 0] 0 (by decide)).1 (by decide),
   (decode_strict [1, 0, 0, 0] 0 (by decide)).2 (by decide) (by decide)⟩

/-- C3: every valid message of the five kinds round-trips bit-exactly
through the codec: `decode (encode m) = m`. -/
theorem decode_encode_roundtrip (m : Msg) (hv : m.valid) :
    decode (encode m).1 (encode m).2 = .ok m := by
  cases m with
  | hello => rfl
  | allocateSharedMemory size =>
    simp only [Msg.valid] at hv
    simp [encode, decode, tagOf, toLE4, fromLE4, knownTag, expectedBytes,
      expectedHandles, HELLO, ALLOCATE_SHARED_MEMORY, UPDATE_TEXTURE2D,
      REGISTER_SHARED_MEMORY, UNREGISTER_SHARED_MEMORY, take4_cons, drop4_cons]
    omega
  | updateTexture2D t l id off cnt =>
    simp only [Msg.valid] at hv
    simp [encode, decode, tagOf, toLE4, fromLE4, knownTag, expectedBytes,
      expectedHandles, HELLO, ALLOCATE_SHARED_MEMORY, UPDATE_TEXTURE2D,
      REGISTER_SHARED_MEMORY, UNREGISTER_SHARED_MEMORY, take4_cons, drop4_cons,
      drop8_cons]
    omega
  | registerSharedMemory size =>
    simp only [Msg.valid] at hv
    simp [encode, decode, tagOf, toLE4, fromLE4, knownTag, expectedBytes,
      expectedHandles, HELLO, ALLOCATE_SHARED_MEMORY, UPDATE_TEXTURE2D,
      REGISTER_SHARED_MEMORY, UNREGISTER_SHARED_MEMORY, take4_cons, drop4_cons]
    omega
  | unregisterSharedMemory id =>
    simp only [Msg.valid] at hv
    simp [encode, decode, tagOf, toLE4, fromLE4, knownTag, expectedBytes,
      expectedHandles, HELLO, ALLOCATE_SHARED_MEMORY, UPDATE_TEXTURE2D,
      REGISTER_SHARED_MEMORY, UNREGISTER_SHARED_MEMORY, take4_cons, drop4_cons]
    omega

/-- Closed instance of C3 at the maximum representable 32-bit size. -/
theorem decode_encode_roundtrip_witness :
    Msg.valid (Msg.allocateSharedMemory 4294967295) ∧
      decode (encode (Msg.allocateSharedMemory 4294967295)).1
        (encode (Msg.allocateSharedMemory 4294967295)).2 =
        .ok (Msg.allocateSharedMemory 4294967295) :=
  ⟨by simp [Msg.valid], decode_encode_roundtrip (Msg.allocateSharedMemory 4294967295) (by simp [Msg.valid])⟩

/-- C8: the end-to-end scenario on a freshly started host — the `Hello`
with one handle is acknowledged with success on the rendezvous address, the
first `AllocateSharedMemory(65536)` is assigned `SegmentId = 0` backed by a
65536-byte segment with a valid handle, and
`UpdateRegion(target = 7, level = 0, id = 0, offset = 0, count = 65536)` on
it is replied to with true after one full-range hand-off to the render
hook. -/
theorem scenario_hello_alloc_update :
    (processHello ⟨Registry.empty, []⟩ [5]).2 = [SentMessage.rendezvousAck true] ∧
      (((processHello ⟨Registry.empty, []⟩ [5]).1.registry).allocate 65536 6).1 = 0 ∧
      ((((processHello ⟨Registry.empty, []⟩ [5]).1.registry).allocate 65536 6).2).lookup 0 =
        some ⟨6, 65536⟩ ∧
      processUpdate (fun _ => true)
          ((((processHello ⟨Registry.empty, []⟩ [5]).1.registry).allocate 65536 6).2)
          ⟨7, 0, 0, 0, 65536⟩ =
        ((true, (((processHello ⟨Registry.empty, []⟩ [5]).1.registry).allocate 65536 6).2),
          [⟨7, 0, 6, 0, 65536⟩]) := by
  decide

end O3D
